import Mathlib

/-!
Shallow embedding of the GamesmanMPI distributed solver engine
(`src/process.py`) together with spec-side definitions used for
refinement comparisons.

The repository ships only `process.py`; the helper modules `utils.py`,
`game_state.py`, `job.py` and `cache_dict.py` are referenced but absent.
Definitions taken from those modules are modelled from the spec and say
so in their doc comments.  Everything else is translated directly from
`process.py`.
-/

namespace GamesmanMPI

set_option linter.unusedSectionVars false

/-- The four game values `WIN`, `LOSS`, `TIE`, `DRAW` (spec §3, utils). -/
inductive Outcome where
  | win
  | loss
  | tie
  | draw
deriving DecidableEq

/-- Modelled from the spec: `utils.negate` (utils.py is absent from src):
`negate(WIN)=LOSS`, `negate(LOSS)=WIN`, `negate(TIE)=TIE`, `negate(DRAW)=DRAW`. -/
def negate : Outcome → Outcome
  | .win => .loss
  | .loss => .win
  | .tie => .tie
  | .draw => .draw

/-- Modelled from the spec: `utils.to_str` renders an outcome as one of
`WIN|LOSS|TIE|DRAW` (spec §6, final output format). -/
def toStr : Outcome → String
  | .win => "WIN"
  | .loss => "LOSS"
  | .tie => "TIE"
  | .draw => "DRAW"

/-- The tuple `nums = (0, 3, 2, 1)` of `Process._res_red`, indexed by the
integer encoding of a state.  The encodings `WIN=0, LOSS=1, TIE=2, DRAW=3`
(utils.py, absent) are forced by the source: `states[nums[x]] = x` must hold
for `_res_red` to reproduce a state from its preference, and only this
assignment satisfies it.  So `numsAt` maps an outcome to its preference. -/
def numsAt : Outcome → Nat
  | .win => 0
  | .loss => 3
  | .tie => 2
  | .draw => 1

/-- The tuple `states = (WIN, DRAW, TIE, LOSS)` of `Process._res_red`,
indexed by a preference number. -/
def statesAt : Nat → Outcome
  | 0 => .win
  | 1 => .draw
  | 2 => .tie
  | _ => .loss

/-- `Process._res_red(res1, res2)` (process.py lines 187-197): if `res2` is
`None` return `negate(res1)`; otherwise return
`negate(states[max(nums[res1], nums[res2])])`. -/
def resRed (res1 : Outcome) (res2 : Option Outcome) : Outcome :=
  match res2 with
  | none => negate res1
  | some r2 => negate (statesAt (max (numsAt res1) (numsAt r2)))

/-- `Process._remote_red(rem1, rem2)` (process.py lines 199-220) on
`(state, remoteness)` pairs, translated branch by branch. -/
def remoteRed (rem1 : Outcome × Nat) (rem2 : Option (Outcome × Nat)) :
    Outcome × Nat :=
  match rem2 with
  | none => (rem1.1, rem1.2)
  | some r2 =>
    if rem1.1 = Outcome.loss ∨ r2.1 = Outcome.loss then
      if rem1.1 = Outcome.loss ∧ r2.1 = Outcome.win then
        (Outcome.loss, rem1.2)
      else if rem1.1 = Outcome.win ∧ r2.1 = Outcome.loss then
        (Outcome.loss, r2.2)
      else
        (Outcome.loss, min rem1.2 r2.2)
    else if r2.1 = Outcome.win ∧ rem1.1 = Outcome.win then
      (Outcome.win, max rem1.2 r2.2)
    else
      (rem1.1, max rem1.2 r2.2)

/-- Modelled from the spec: `utils.reduce_singleton` (utils.py is absent from
src).  The reductions are "applied by folding a binary operator over the
child list" (spec §4.7); the `None` second argument of `_res_red` and
`_remote_red` shows the singleton case is `f(x, None)`.  So: a one-element
list yields `f x none`, a longer list is the usual left fold of
`fun a b => f a (some b)`, and the empty list (on which Python's `reduce`
raises) yields `none`. -/
def reduceSingleton {α : Type} (f : α → Option α → α) : List α → Option α
  | [] => none
  | [x] => some (f x none)
  | x :: y :: rest => some ((y :: rest).foldl (fun a b => f a (some b)) x)

/-- Modelled from the spec: `utils.PRIMITIVE_REMOTENESS` is numerically 0
(spec §3, Remoteness). -/
def primitiveRemoteness : Nat := 0

/-! ### Spec-side reduction (for refinement comparison only)

These definitions follow the spec's words in §4.7, not the source; they are
compared against the source-derived `resRed`/`remoteRed` folds. -/

/-- Spec §4.7: preference `LOSS > TIE > DRAW > WIN`. -/
def specPref : Outcome → Nat
  | .loss => 3
  | .tie => 2
  | .draw => 1
  | .win => 0

/-- Spec §4.7: `pick(a, b)` returns whichever of `{a, b}` has higher
preference. -/
def pick (a b : Outcome) : Outcome :=
  if specPref a < specPref b then b else a

/-- Spec §4.7 outcome reduction: fold `pick` over the child-perspective
outcomes, then apply a single final `negate`. -/
def specOutcomeRed : List Outcome → Option Outcome
  | [] => none
  | x :: xs => some (negate (xs.foldl pick x))

/-- Spec §8 remoteness law, WIN case: the minimum remoteness among the
children whose child-perspective outcome is `LOSS` (the winning moves). -/
def specWinRemote (data : List (Outcome × Nat)) : Option Nat :=
  ((data.filter (fun x => decide (x.1 = Outcome.loss))).map Prod.snd).min?

/-! ### Wire data: game states and jobs -/

/-- Modelled from the spec: `GameState` (game_state.py is absent from src).
It carries an opaque position and the mutable `state` / `remoteness` fields
that `process.py` reads and writes; both start out unset (`None`). -/
structure GameState (Pos : Type) where
  pos : Pos
  state : Option Outcome
  remoteness : Option Nat
deriving DecidableEq

/-- The six job kinds, in the order of `Process.dispatch`'s table
(process.py lines 27-34): `FINISHED=0`, `LOOK_UP=1`, `RESOLVE=2`,
`SEND_BACK=3`, `DISTRIBUTE=4`, `CHECK_FOR_UPDATES=5`. -/
inductive JobKind where
  | finished
  | lookUp
  | resolve
  | sendBack
  | distribute
  | checkForUpdates
deriving DecidableEq

/-- The numeric kind, which is also the priority (lower preempts). -/
def JobKind.prio : JobKind → Nat
  | .finished => 0
  | .lookUp => 1
  | .resolve => 2
  | .sendBack => 3
  | .distribute => 4
  | .checkForUpdates => 5

/-- Modelled from the spec: `Job` (job.py is absent from src).  A job carries
a kind, an optional game state (`FINISHED` and `CHECK_FOR_UPDATES` jobs are
built without one), a parent rank and a job id (spec §3, §6 wire format);
the fields omitted at construction default to `None`/0. -/
structure Job (Pos : Type) where
  jobType : JobKind
  gameState : Option (GameState Pos)
  parent : Nat
  jobId : Nat
deriving DecidableEq

/-- The synthetic job `Job(Job.CHECK_FOR_UPDATES)` enqueued by `run` when the
local queue is empty (process.py line 55). -/
def cfuJob (Pos : Type) : Job Pos :=
  ⟨JobKind.checkForUpdates, none, 0, 0⟩

/-- Externally visible effects of a handler: a point-to-point send, a line
printed to standard output, or the abort broadcast. -/
inductive Effect (Pos : Type) where
  | send (j : Job Pos) (dest : Nat)
  | printLine (s : String)
  | abortCall
deriving DecidableEq

/-- The Python exceptions the embedded code can raise. -/
inductive PyError where
  | keyError
  | attributeError
  | typeError
deriving DecidableEq

/-- The opaque game definition (spec §6, GameRules): primitive detection,
primitive value, successor enumeration and the deterministic hash. -/
structure Rules (Pos : Type) where
  isPrimitive : Pos → Bool
  primitiveValue : Pos → Outcome
  expand : Pos → List Pos
  hash : Pos → Nat

/-- Modelled from the spec: `GameState.get_hash(world_size)` (game_state.py
absent) is `hash(pos) mod world_size`, the owner rank (spec §4.1). -/
def Rules.getHash {Pos : Type} (R : Rules Pos) (p : Pos) (w : Nat) : Nat :=
  R.hash p % w

/-- Pointwise update of a table modelled as a partial function. -/
def updFn {κ ν : Type} [DecidableEq κ] (f : κ → Option ν) (k : κ)
    (v : Option ν) : κ → Option ν :=
  fun k2 => if k2 = k then v else f k2

/-- The `__slots__` tuple of `Process` (process.py lines 15-18), verbatim. -/
def processSlots : List String :=
  ["rank", "root", "initial_pos", "resolved",
   "world_size", "comm", "send", "recv", "abort",
   "work", "received", "remote", "_id", "_counter",
   "_pending"]

/-- The per-rank state of one `Process`: its rank data, the `resolved` and
`remote` tables, the class attribute `Process.IS_FINISHED` read by `run`'s
guard, the local priority queue `work`, the job-id tracker `_id`, and the
`_counter` / `_pending` registries.  A `_pending` value is the Python list
`[Job, GameState, ...]`: the originating job followed by the collected child
game states (each possibly `None`, since `resolve` appends
`job.game_state` unchecked). -/
structure ProcState (Pos : Type) where
  rank : Nat
  worldSize : Nat
  root : Nat
  initialPos : Pos
  resolved : Pos → Option Outcome
  remote : Pos → Option Nat
  finishedClass : Bool
  queue : List (Job Pos)
  nextId : Nat
  counter : Nat → Option Int
  pending : Nat → Option (Job Pos × List (Option (GameState Pos)))

/-- Result of one handler: an exception, or the new state, the emitted
effects, and the job the handler returns for local enqueueing. -/
abbrev HRes (Pos : Type) :=
  Except PyError (ProcState Pos × List (Effect Pos) × Option (Job Pos))

variable {Pos : Type} [DecidableEq Pos]

/-! ### Handlers, translated from process.py -/

/-- `Process.finished` (process.py lines 103-107) executes
`self.IS_FINISHED = True`.  `Process` declares `__slots__` (so instances
have no `__dict__`), `IS_FINISHED` is not one of the slots, and the class
attribute `Process.IS_FINISHED` is not a data descriptor, so CPython's
attribute assignment has nowhere to store the value and raises
`AttributeError`; in particular the class attribute read by `run`'s guard
is never modified by this handler. -/
def finishedHandler (s : ProcState Pos) : HRes Pos :=
  if processSlots.contains "IS_FINISHED" then
    .ok (s, [], none)
  else
    .error PyError.attributeError

/-- The `except KeyError` branch of `Process.lookup` (process.py lines
119-132).  Modelled from the spec where game_state.py is absent: reading
`job.game_state.primitive` yields the position's primitive value, and the
primitive-branch `SEND_BACK` carries `outcome = resolved[p]` and
`remoteness = 0` (spec §4.3); the source itself only assigns
`game_state.remoteness = PRIMITIVE_REMOTENESS` before returning. -/
def lookupExcept (R : Rules Pos) (s : ProcState Pos) (job : Job Pos)
    (gs : GameState Pos) : HRes Pos :=
  if R.isPrimitive gs.pos then
    .ok ({ s with
            remote := updFn s.remote gs.pos (some primitiveRemoteness),
            resolved := updFn s.resolved gs.pos (some (R.primitiveValue gs.pos)) },
         [],
         some ⟨JobKind.sendBack,
               some { gs with
                       state := some (R.primitiveValue gs.pos),
                       remoteness := some primitiveRemoteness },
               job.parent, job.jobId⟩)
  else
    .ok (s, [], some ⟨JobKind.distribute, some gs, job.parent, job.jobId⟩)

/-- `Process.lookup` (process.py lines 109-132).  The `try` block reads
`resolved[pos]` and then `remote[pos]`; a `KeyError` from either falls into
the `except` branch (with `game_state.state` already mutated when the first
read succeeded).  A job without a game state makes the attribute access
`job.game_state.pos` raise. -/
def lookup (R : Rules Pos) (s : ProcState Pos) (job : Job Pos) : HRes Pos :=
  match job.gameState with
  | none => .error PyError.attributeError
  | some gs =>
    match s.resolved gs.pos with
    | some v =>
      match s.remote gs.pos with
      | some r =>
        .ok (s, [],
             some ⟨JobKind.sendBack,
                   some { gs with state := some v, remoteness := some r },
                   job.parent, job.jobId⟩)
      | none => lookupExcept R s job { gs with state := some v }
    | none => lookupExcept R s job gs

/-- `Process.distribute` (process.py lines 134-162, together with
`_add_pending_state` and `_update_id`): list the successors, record
`_pending[_id] = [job]` and `_counter[_id] = len(children)`, send one
`LOOK_UP(child, parent=self.rank, job_id=_id)` to each child's owner, and
finally increment `_id`. -/
def distributeHandler (R : Rules Pos) (s : ProcState Pos) (job : Job Pos) :
    HRes Pos :=
  match job.gameState with
  | none => .error PyError.attributeError
  | some gs =>
    let children := R.expand gs.pos
    .ok ({ s with
            pending := updFn s.pending s.nextId (some (job, [])),
            counter := updFn s.counter s.nextId (some (children.length : Int)),
            nextId := s.nextId + 1 },
         children.map (fun c =>
           Effect.send ⟨JobKind.lookUp, some ⟨c, none, none⟩, s.rank, s.nextId⟩
             (R.getHash c s.worldSize)),
         none)

/-- `Process.send_back` (process.py lines 179-185): wrap the same game
state, parent and id into a `RESOLVE` job and send it to `parent`. -/
def sendBackHandler (s : ProcState Pos) (job : Job Pos) : HRes Pos :=
  .ok (s,
       [Effect.send ⟨JobKind.resolve, job.gameState, job.parent, job.jobId⟩
          job.parent],
       none)

/-- `GameState.to_remote_tuple` applied to every collected child
(process.py line 249).  A missing game state or an unset `state` /
`remoteness` field makes the Python reduction raise (attribute access on
`None`, or `nums[None]` / `max` with `None`); both are collapsed into a
failing extraction here. -/
def childTuples (gss : List (Option (GameState Pos))) :
    Option (List (Outcome × Nat)) :=
  gss.mapM (fun og => do
    let g ← og
    let st ← g.state
    let r ← g.remoteness
    pure (st, r))

/-- `Process.resolve` (process.py lines 227-267, with `_cleanup`):
decrement `_counter[job_id]` (`KeyError` when absent), append the incoming
game state to `_pending[job_id]`, and when the counter reaches zero either
write the stored parent's primitive value and remoteness 0 (primitive
branch) or fold `_res_red` over the collected child states and
`_remote_red` over the `(state, remoteness)` pairs, write
`resolved[pos]` and `remote[pos] = reduced + 1`, enqueue the `SEND_BACK`
locally, and delete the `_pending` and `_counter` entries.  In the
primitive branch the enqueued `SEND_BACK` carries `job.game_state`
unmodified; in the other branch `job.game_state` is first mutated to the
parent's outcome and remoteness. -/
def resolveHandler (R : Rules Pos) (s : ProcState Pos) (job : Job Pos) :
    HRes Pos :=
  match s.counter job.jobId with
  | none => .error PyError.keyError
  | some c =>
    match s.pending job.jobId with
    | none => .error PyError.keyError
    | some (origJob, gss) =>
      let c2 := c - 1
      let gss2 := gss ++ [job.gameState]
      let s2 := { s with
                   counter := updFn s.counter job.jobId (some c2),
                   pending := updFn s.pending job.jobId (some (origJob, gss2)) }
      if c2 = 0 then
        match origJob.gameState with
        | none => .error PyError.attributeError
        | some pgs =>
          if R.isPrimitive pgs.pos then
            .ok ({ s2 with
                    resolved :=
                      updFn s2.resolved pgs.pos (some (R.primitiveValue pgs.pos)),
                    remote := updFn s2.remote pgs.pos (some 0),
                    queue := s2.queue ++
                      [⟨JobKind.sendBack, job.gameState,
                        origJob.parent, origJob.jobId⟩],
                    pending := updFn s2.pending job.jobId none,
                    counter := updFn s2.counter job.jobId none },
                 [], none)
          else
            match childTuples gss2 with
            | none => .error PyError.typeError
            | some data =>
              match reduceSingleton resRed (data.map Prod.fst),
                    reduceSingleton remoteRed data with
              | some outc, some red =>
                let rem := red.2 + 1
                match job.gameState with
                | none => .error PyError.attributeError
                | some g =>
                  .ok ({ s2 with
                          resolved := updFn s2.resolved pgs.pos (some outc),
                          remote := updFn s2.remote pgs.pos (some rem),
                          queue := s2.queue ++
                            [⟨JobKind.sendBack,
                              some { g with state := some outc,
                                            remoteness := some rem },
                              origJob.parent, origJob.jobId⟩],
                          pending := updFn s2.pending job.jobId none,
                          counter := updFn s2.counter job.jobId none },
                       [], none)
              | _, _ => .error PyError.typeError
      else
        .ok (s2, [], none)

/-- `Process.check_for_updates` (process.py lines 164-177): probe the
transport; when a message is ready, receive one and enqueue it.  The ready
messages are passed in as a list; the handler consumes at most the first. -/
def checkForUpdatesHandler (s : ProcState Pos) (incoming : List (Job Pos)) :
    ProcState Pos × List (Job Pos) :=
  match incoming with
  | [] => (s, [])
  | m :: rest => ({ s with queue := s.queue ++ [m] }, rest)

/-- `Process.dispatch` (process.py lines 21-35): index the handler table by
the job's kind.  The ready incoming messages are threaded through for
`CHECK_FOR_UPDATES`. -/
def dispatch (R : Rules Pos) (s : ProcState Pos) (job : Job Pos)
    (incoming : List (Job Pos)) :
    Except PyError
      (ProcState Pos × List (Effect Pos) × Option (Job Pos) × List (Job Pos)) :=
  match job.jobType with
  | .finished => (finishedHandler s).map (fun x => (x.1, x.2.1, x.2.2, incoming))
  | .lookUp => (lookup R s job).map (fun x => (x.1, x.2.1, x.2.2, incoming))
  | .resolve =>
    (resolveHandler R s job).map (fun x => (x.1, x.2.1, x.2.2, incoming))
  | .sendBack =>
    (sendBackHandler s job).map (fun x => (x.1, x.2.1, x.2.2, incoming))
  | .distribute =>
    (distributeHandler R s job).map (fun x => (x.1, x.2.1, x.2.2, incoming))
  | .checkForUpdates =>
    let r := checkForUpdatesHandler s incoming
    .ok (r.1, [], none, r.2)

/-- The root check at the top of each `run` iteration (process.py lines
42-53): on the root, when the initial position is resolved, set
`Process.IS_FINISHED`, print `<OUTCOME> in <REMOTENESS> moves` and call
`abort()`.  Reading `remote[initial]` raises `KeyError` when absent. -/
def rootCheck (s : ProcState Pos) :
    Except PyError (ProcState Pos × List (Effect Pos)) :=
  if s.rank = s.root then
    match s.resolved s.initialPos with
    | some v =>
      match s.remote s.initialPos with
      | some r =>
        .ok ({ s with finishedClass := true },
             [Effect.printLine (toStr v ++ " in " ++ toString r ++ " moves"),
              Effect.abortCall])
      | none => .error PyError.keyError
    | none => .ok (s, [])
  else
    .ok (s, [])

/-- Modelled from the spec: popping `queue.PriorityQueue` returns a job of
minimal numeric kind; job.py's tiebreak is unspecified, so equal kinds are
drained FIFO (spec §3 and design notes). -/
def popJob : List (Job Pos) → Option (Job Pos × List (Job Pos))
  | [] => none
  | j :: rest =>
    match popJob rest with
    | none => some (j, [])
    | some (k, rest2) =>
      if j.jobType.prio ≤ k.jobType.prio then some (j, rest)
      else some (k, j :: rest2)

/-- `run`'s "if the queue is empty, enqueue a synthetic
`CHECK_FOR_UPDATES`" step (process.py lines 54-55). -/
def padQueue (s : ProcState Pos) : ProcState Pos :=
  if s.queue.isEmpty then { s with queue := s.queue ++ [cfuJob Pos] } else s

/-- The state after `work.get()` removed the popped job from the queue. -/
def afterPop (s : ProcState Pos) (rest : List (Job Pos)) : ProcState Pos :=
  { s with queue := rest }

/-- One iteration of the `run` loop body (process.py lines 41-60), entered
with the guard `not Process.IS_FINISHED` true: root check, pad an empty
queue with a `CHECK_FOR_UPDATES` job, pop the highest-priority job,
dispatch it, and enqueue its result when there is one.  The second
component records which job was dispatched (even when the handler raised). -/
def runIteration (R : Rules Pos) (s : ProcState Pos)
    (incoming : List (Job Pos)) :
    Except PyError (ProcState Pos × List (Effect Pos) × List (Job Pos)) ×
      Option (Job Pos) :=
  match rootCheck s with
  | .error e => (.error e, none)
  | .ok (s1, effs1) =>
    match popJob (padQueue s1).queue with
    | none => (.error PyError.keyError, none)
    | some (job, rest) =>
      match dispatch R (afterPop (padQueue s1) rest) job incoming with
      | .error e => (.error e, some job)
      | .ok (s4, effs2, result, inc2) =>
        match result with
        | some j =>
          (.ok ({ s4 with queue := s4.queue ++ [j] }, effs1 ++ effs2, inc2),
           some job)
        | none => (.ok (s4, effs1 ++ effs2, inc2), some job)

/-! ### Accessors on handler results (used to state theorems) -/

/-- The `resolved` table at `p` after a handler, when it did not raise. -/
def stResolved (r : HRes Pos) (p : Pos) : Option (Option Outcome) :=
  match r with
  | .ok (s, _, _) => some (s.resolved p)
  | .error _ => none

/-- The `remote` table at `p` after a handler, when it did not raise. -/
def stRemote (r : HRes Pos) (p : Pos) : Option (Option Nat) :=
  match r with
  | .ok (s, _, _) => some (s.remote p)
  | .error _ => none

/-- The `_counter` registry at `k` after a handler, when it did not raise. -/
def stCounter (r : HRes Pos) (k : Nat) : Option (Option Int) :=
  match r with
  | .ok (s, _, _) => some (s.counter k)
  | .error _ => none

/-- The `_pending` registry at `k` after a handler, when it did not raise. -/
def stPending (r : HRes Pos) (k : Nat) :
    Option (Option (Job Pos × List (Option (GameState Pos)))) :=
  match r with
  | .ok (s, _, _) => some (s.pending k)
  | .error _ => none

/-- The `_id` tracker after a handler, when it did not raise. -/
def stNextId (r : HRes Pos) : Option Nat :=
  match r with
  | .ok (s, _, _) => some s.nextId
  | .error _ => none

/-- The effects a handler emitted, when it did not raise. -/
def stEffects (r : HRes Pos) : Option (List (Effect Pos)) :=
  match r with
  | .ok (_, effs, _) => some effs
  | .error _ => none

/-- Whether an effect is a `printLine`. -/
def isPrintEffect : Effect Pos → Bool
  | .printLine _ => true
  | _ => false

/-- How many lines a list of effects prints. -/
def countPrints (effs : List (Effect Pos)) : Nat :=
  effs.countP isPrintEffect

/-- The effects of a `run` iteration, when nothing raised. -/
def itEffects
    (x : Except PyError (ProcState Pos × List (Effect Pos) × List (Job Pos)) ×
         Option (Job Pos)) : Option (List (Effect Pos)) :=
  match x.1 with
  | .ok (_, effs, _) => some effs
  | .error _ => none

/-- The job a `run` iteration dispatched (recorded even when it raised). -/
def itDispatched
    (x : Except PyError (ProcState Pos × List (Effect Pos) × List (Job Pos)) ×
         Option (Job Pos)) : Option (Job Pos) :=
  x.2

/-- The `Process.IS_FINISHED` class attribute after a `run` iteration. -/
def itFinished
    (x : Except PyError (ProcState Pos × List (Effect Pos) × List (Job Pos)) ×
         Option (Job Pos)) : Option Bool :=
  match x.1 with
  | .ok (s, _, _) => some s.finishedClass
  | .error _ => none

/-! ### Concrete fixtures (positions are natural numbers) -/

/-- A rules provider with no primitive positions and no successors, used
where only the reduction or the registry bookkeeping matters. -/
def RfixA : Rules Nat :=
  { isPrimitive := fun _ => false
    primitiveValue := fun _ => Outcome.win
    expand := fun _ => []
    hash := fun p => p }

/-- An empty single-rank process state. -/
def baseState : ProcState Nat :=
  { rank := 0
    worldSize := 1
    root := 0
    initialPos := 0
    resolved := fun _ => none
    remote := fun _ => none
    finishedClass := false
    queue := []
    nextId := 0
    counter := fun _ => none
    pending := fun _ => none }

/-- A state holding one pending entry (id 3) for parent position 10 that
waits on one last child, having already collected two `(WIN, 0)` children. -/
def sC1 : ProcState Nat :=
  { baseState with
      nextId := 5
      counter := fun k => if k = 3 then some 1 else none
      pending := fun k =>
        if k = 3 then
          some (⟨JobKind.distribute, some ⟨10, none, none⟩, 0, 0⟩,
                [some ⟨11, some Outcome.win, some 0⟩,
                 some ⟨12, some Outcome.win, some 0⟩])
        else none }

/-- The final `RESOLVE` for `sC1`: a third child with value `(WIN, 0)`. -/
def jC1 : Job Nat := ⟨JobKind.resolve, some ⟨13, some Outcome.win, some 0⟩, 0, 3⟩

/-- A state holding one pending entry (id 3) for parent position 10 that
waits on one last child, having already collected a `(TIE, 1)` child. -/
def sC2 : ProcState Nat :=
  { baseState with
      counter := fun k => if k = 3 then some 1 else none
      pending := fun k =>
        if k = 3 then
          some (⟨JobKind.distribute, some ⟨10, none, none⟩, 0, 0⟩,
                [some ⟨11, some Outcome.tie, some 1⟩])
        else none }

/-- The final `RESOLVE` for `sC2`: a `(LOSS, 5)` child. -/
def jC2 : Job Nat := ⟨JobKind.resolve, some ⟨12, some Outcome.loss, some 5⟩, 0, 3⟩

/-! ### C1 -/

/-- C1: the claim says the parent outcome written by the completed pending
entry equals `negate` applied once to the `pick`-fold of the child
outcomes.  It fails: `_res_red` applies `negate` at every combining step,
so for the three all-`WIN` children collected here the handler writes
`WIN` to the resolved table, while the claimed single-negation fold gives
`LOSS` (which is also the game-theoretically correct value: every move
hands the opponent a win). -/
theorem c1_resolve_outcome_diverges :
    stResolved (resolveHandler RfixA sC1 jC1) 10 = some (some Outcome.win) ∧
    specOutcomeRed [Outcome.win, Outcome.win, Outcome.win] =
      some Outcome.loss := by
  decide

/-! ### C2 -/

/-- C2: the claim says a parent resolved as `WIN` gets remoteness
`1 + min` over the remotenesses of its `LOSS` children.  It fails: on the
children `[(TIE, 1), (LOSS, 5)]` the handler resolves parent position 10
to `WIN` but writes remoteness `2` (the `_remote_red` fold takes the
minimum over the `TIE` child's remoteness as well), while the claimed
formula gives `1 + 5 = 6`. -/
theorem c2_resolve_remoteness_diverges :
    stResolved (resolveHandler RfixA sC2 jC2) 10 = some (some Outcome.win) ∧
    stRemote (resolveHandler RfixA sC2 jC2) 10 = some (some 2) ∧
    (specWinRemote [(Outcome.tie, 1), (Outcome.loss, 5)]).map (fun x => x + 1) =
      some 6 := by
  decide

/-! ### C3 -/

/-- C3: the claim says permuting the child list leaves the reduced parent
`(outcome, remoteness)` unchanged.  It fails: the child lists
`[(WIN,1), (TIE,3), (LOSS,5)]` and `[(LOSS,5), (WIN,1), (TIE,3)]` are
permutations of each other, yet the outcome fold gives `WIN` on the first
order and `TIE` on the second, and the remoteness fold gives `5` on the
first order and `3` on the second. -/
theorem c3_reduction_order_dependent :
    reduceSingleton resRed [Outcome.win, Outcome.tie, Outcome.loss] =
      some Outcome.win ∧
    reduceSingleton resRed [Outcome.loss, Outcome.win, Outcome.tie] =
      some Outcome.tie ∧
    (reduceSingleton remoteRed
        [(Outcome.win, 1), (Outcome.tie, 3), (Outcome.loss, 5)]).map Prod.snd =
      some 5 ∧
    (reduceSingleton remoteRed
        [(Outcome.loss, 5), (Outcome.win, 1), (Outcome.tie, 3)]).map Prod.snd =
      some 3 ∧
    List.Perm [Outcome.win, Outcome.tie, Outcome.loss]
      [Outcome.loss, Outcome.win, Outcome.tie] := by
  decide

/-! ### C4 -/

/-- C4: the claim says handling a `FINISHED` job sets a process-wide
terminal flag observed by the worker loop.  It fails: the handler executes
`self.IS_FINISHED = True`, and since `IS_FINISHED` is not one of
`Process.__slots__` (and instances have no `__dict__`), the assignment
raises `AttributeError` on every state; the class attribute
`Process.IS_FINISHED` read by `run`'s guard is never written by the
handler. -/
theorem c4_finished_handler_raises :
    (∀ s : ProcState Nat, finishedHandler s = Except.error PyError.attributeError) ∧
    processSlots.contains "IS_FINISHED" = false := by
  constructor
  · intro s
    rfl
  · decide

/-! ### C5 -/

/-- A state about to distribute, with id tracker at 7. -/
def sC5 : ProcState Nat := { baseState with nextId := 7 }

/-- A `DISTRIBUTE` job for position 5 (which `RfixA` expands to nothing). -/
def jC5 : Job Nat := ⟨JobKind.distribute, some ⟨5, none, none⟩, 2, 4⟩

/-- C5: the claim says an empty successor sequence for a non-primitive
position makes `DISTRIBUTE` abort the fleet as a fatal rules violation.
It fails: on position 5, which expands to `[]`, the handler raises no
error and emits no effect at all (in particular no abort); it records a
pending entry with outstanding count 0 and moves on. -/
theorem c5_empty_expand_counterexample :
    stEffects (distributeHandler RfixA sC5 jC5) = some [] ∧
    stCounter (distributeHandler RfixA sC5 jC5) 7 = some (some 0) ∧
    stPending (distributeHandler RfixA sC5 jC5) 7 = some (some (jC5, [])) ∧
    stNextId (distributeHandler RfixA sC5 jC5) = some 8 := by
  decide

/-- C5 (amended): when `expand` returns an empty sequence, `DISTRIBUTE`
does not abort or signal an error: it creates a pending entry with
outstanding count 0 under the fresh id, sends no `LOOK_UP`s, and returns
normally (such an entry can never be completed by a `RESOLVE`). -/
theorem c5_empty_expand_silent (R : Rules Pos) (s : ProcState Pos)
    (job : Job Pos) (gs : GameState Pos)
    (hgs : job.gameState = some gs) (hexp : R.expand gs.pos = []) :
    distributeHandler R s job =
      Except.ok ({ s with
                    pending := updFn s.pending s.nextId (some (job, [])),
                    counter := updFn s.counter s.nextId (some 0),
                    nextId := s.nextId + 1 },
                 [], none) := by
  simp [distributeHandler, hgs, hexp]

/-- A second distribute fixture for the C5 witness. -/
def sC5w : ProcState Nat := { baseState with nextId := 9 }

/-- Its `DISTRIBUTE` job, for position 6. -/
def jC5w : Job Nat := ⟨JobKind.distribute, some ⟨6, none, none⟩, 1, 2⟩

/-- Witness for the amended C5 at a concrete input. -/
theorem c5_empty_expand_silent_witness :
    distributeHandler RfixA sC5w jC5w =
      Except.ok ({ sC5w with
                    pending := updFn sC5w.pending 9 (some (jC5w, [])),
                    counter := updFn sC5w.counter 9 (some 0),
                    nextId := 10 },
                 [], none) :=
  c5_empty_expand_silent RfixA sC5w jC5w ⟨6, none, none⟩ rfl rfl

/-! ### C6 -/

/-- C6: for a `LOOK_UP` job on position `p`: when `p` is in the resolved
table (with its remoteness) the handler changes no table and returns a
`SEND_BACK` carrying `resolved[p]`, `remoteness[p]` and the originator's
parent and job id; when `p` is absent and primitive it records
`resolved[p] = primitive value`, `remoteness[p] = 0` and returns the same
`SEND_BACK`; otherwise it returns a `DISTRIBUTE` for `p` with the same
parent and job id. -/
theorem c6_lookup_cases (R : Rules Pos) (s : ProcState Pos) (job : Job Pos)
    (gs : GameState Pos) (hgs : job.gameState = some gs) :
    (∀ v rr, s.resolved gs.pos = some v → s.remote gs.pos = some rr →
      lookup R s job =
        Except.ok (s, [],
          some ⟨JobKind.sendBack,
                some { gs with state := some v, remoteness := some rr },
                job.parent, job.jobId⟩)) ∧
    (s.resolved gs.pos = none → R.isPrimitive gs.pos = true →
      lookup R s job =
        Except.ok ({ s with
                      remote := updFn s.remote gs.pos (some primitiveRemoteness),
                      resolved := updFn s.resolved gs.pos
                        (some (R.primitiveValue gs.pos)) },
                   [],
                   some ⟨JobKind.sendBack,
                         some { gs with
                                 state := some (R.primitiveValue gs.pos),
                                 remoteness := some primitiveRemoteness },
                         job.parent, job.jobId⟩)) ∧
    (s.resolved gs.pos = none → R.isPrimitive gs.pos = false →
      lookup R s job =
        Except.ok (s, [],
          some ⟨JobKind.distribute, some gs, job.parent, job.jobId⟩)) := by
  refine ⟨?_, ?_, ?_⟩
  · intro v rr hv hr
    simp [lookup, hgs, hv, hr]
  · intro hv hprim
    simp [lookup, lookupExcept, hgs, hv, hprim]
  · intro hv hprim
    simp [lookup, lookupExcept, hgs, hv, hprim]

/-- A rules provider where only position 1 is primitive. -/
def RC6 : Rules Nat :=
  { isPrimitive := fun p => decide (p = 1)
    primitiveValue := fun _ => Outcome.tie
    expand := fun p => [p + 1]
    hash := fun p => p }

/-- A state whose tables know position 0 as `(TIE, 4)`. -/
def sC6 : ProcState Nat :=
  { baseState with
      resolved := fun p => if p = 0 then some Outcome.tie else none
      remote := fun p => if p = 0 then some 4 else none }

/-- A `LOOK_UP` for position 0 from parent rank 2, job id 9. -/
def jC6 : Job Nat := ⟨JobKind.lookUp, some ⟨0, none, none⟩, 2, 9⟩

/-- Witness for C6 at a concrete resolved position. -/
theorem c6_lookup_cases_witness :
    lookup RC6 sC6 jC6 =
      Except.ok (sC6, [],
        some ⟨JobKind.sendBack, some ⟨0, some Outcome.tie, some 4⟩, 2, 9⟩) :=
  (c6_lookup_cases RC6 sC6 jC6 ⟨0, none, none⟩ rfl).1 Outcome.tie 4 rfl rfl

/-! ### C8 -/

/-- A state that already knows parent position 10 as `(TIE, 7)` while a
pending entry (id 3) for the same position still waits on one child. -/
def sC8 : ProcState Nat :=
  { baseState with
      resolved := fun p => if p = 10 then some Outcome.tie else none
      remote := fun p => if p = 10 then some 7 else none
      counter := fun k => if k = 3 then some 1 else none
      pending := fun k =>
        if k = 3 then
          some (⟨JobKind.distribute, some ⟨10, none, none⟩, 0, 0⟩, [])
        else none }

/-- The final `RESOLVE` for `sC8`: a `(LOSS, 0)` child. -/
def jC8 : Job Nat := ⟨JobKind.resolve, some ⟨11, some Outcome.loss, some 0⟩, 0, 3⟩

/-- C8: the claim says an entry, once written, is never overwritten, and
that the `RESOLVE` handler writes only if the position is not already
present.  It fails: position 10 is already recorded as `(TIE, 7)`, yet the
final child result makes the handler write `(WIN, 1)` over it — the write
is unconditional. -/
theorem c8_overwrite_counterexample :
    sC8.resolved 10 = some Outcome.tie ∧
    sC8.remote 10 = some 7 ∧
    stResolved (resolveHandler RfixA sC8 jC8) 10 = some (some Outcome.win) ∧
    stRemote (resolveHandler RfixA sC8 jC8) 10 = some (some 1) := by
  decide

/-- C8 (amended): the `RESOLVE` handler, on the final child result, writes
the reduced parent outcome and remoteness unconditionally, whether or not
the position is already present in the tables — an existing entry is
overwritten. -/
theorem c8_resolve_overwrites (R : Rules Pos) (s : ProcState Pos)
    (job origJob : Job Pos) (gss : List (Option (GameState Pos)))
    (pgs gs : GameState Pos) (v0 : Outcome) (r0 : Nat)
    (data : List (Outcome × Nat)) (outc : Outcome) (red : Outcome × Nat)
    (hc : s.counter job.jobId = some 1)
    (hp : s.pending job.jobId = some (origJob, gss))
    (hpg : origJob.gameState = some pgs)
    (hnp : R.isPrimitive pgs.pos = false)
    (hgs : job.gameState = some gs)
    (hdata : childTuples (gss ++ [some gs]) = some data)
    (houtc : reduceSingleton resRed (data.map Prod.fst) = some outc)
    (hred : reduceSingleton remoteRed data = some red)
    (_hv : s.resolved pgs.pos = some v0)
    (_hr : s.remote pgs.pos = some r0) :
    stResolved (resolveHandler R s job) pgs.pos = some (some outc) ∧
    stRemote (resolveHandler R s job) pgs.pos = some (some (red.2 + 1)) := by
  simp [resolveHandler, hc, hp, hpg, hnp, hgs, hdata, houtc, hred,
        stResolved, stRemote, updFn]

/-- A second overwrite fixture for the C8 witness: position 20 is known as
`(DRAW, 2)` and a one-child pending entry (id 6) completes for it. -/
def sC8w : ProcState Nat :=
  { baseState with
      resolved := fun p => if p = 20 then some Outcome.draw else none
      remote := fun p => if p = 20 then some 2 else none
      counter := fun k => if k = 6 then some 1 else none
      pending := fun k =>
        if k = 6 then
          some (⟨JobKind.distribute, some ⟨20, none, none⟩, 1, 5⟩, [])
        else none }

/-- The final `RESOLVE` for `sC8w`: a `(WIN, 3)` child. -/
def jC8w : Job Nat := ⟨JobKind.resolve, some ⟨21, some Outcome.win, some 3⟩, 0, 6⟩

/-- Witness for the amended C8 at a concrete input: the stored `(DRAW, 2)`
entry for position 20 is overwritten with `(LOSS, 4)`. -/
theorem c8_resolve_overwrites_witness :
    stResolved (resolveHandler RfixA sC8w jC8w) 20 = some (some Outcome.loss) ∧
    stRemote (resolveHandler RfixA sC8w jC8w) 20 = some (some 4) :=
  c8_resolve_overwrites RfixA sC8w jC8w
    ⟨JobKind.distribute, some ⟨20, none, none⟩, 1, 5⟩ []
    ⟨20, none, none⟩ ⟨21, some Outcome.win, some 3⟩ Outcome.draw 2
    [(Outcome.win, 3)] Outcome.loss (Outcome.win, 3)
    rfl rfl rfl rfl rfl rfl rfl rfl rfl rfl

/-! ### C9 -/

/-- C9: `DISTRIBUTE` on a position with `n` successors creates exactly one
pending entry under the current id (holding the originating job), sets its
outstanding count to `n`, sends exactly one `LOOK_UP` per successor tagged
with `parent = self.rank` and that id, addressed to each successor's owner
rank, and increments the id tracker (so successive allocations are
strictly increasing and never repeat). -/
theorem c9_distribute_shape (R : Rules Pos) (s : ProcState Pos)
    (job : Job Pos) (gs : GameState Pos) (hgs : job.gameState = some gs) :
    distributeHandler R s job =
      Except.ok ({ s with
                    pending := updFn s.pending s.nextId (some (job, [])),
                    counter := updFn s.counter s.nextId
                      (some ((R.expand gs.pos).length : Int)),
                    nextId := s.nextId + 1 },
                 (R.expand gs.pos).map (fun c =>
                   Effect.send
                     ⟨JobKind.lookUp, some ⟨c, none, none⟩, s.rank, s.nextId⟩
                     (R.getHash c s.worldSize)),
                 none) := by
  simp [distributeHandler, hgs]

/-- A rules provider with two successors `p+1, p+2` and hash `p+3`. -/
def RC9 : Rules Nat :=
  { isPrimitive := fun _ => false
    primitiveValue := fun _ => Outcome.win
    expand := fun p => [p + 1, p + 2]
    hash := fun p => p + 3 }

/-- Rank 1 of a two-rank fleet, id tracker at 4. -/
def sC9 : ProcState Nat := { baseState with rank := 1, worldSize := 2, nextId := 4 }

/-- A `DISTRIBUTE` job for position 5 from parent rank 0, job id 11. -/
def jC9 : Job Nat := ⟨JobKind.distribute, some ⟨5, none, none⟩, 0, 11⟩

/-- Witness for C9: position 5 expands to 6 and 7, owned by ranks
`9 % 2 = 1` and `10 % 2 = 0`. -/
theorem c9_distribute_shape_witness :
    distributeHandler RC9 sC9 jC9 =
      Except.ok ({ sC9 with
                    pending := updFn sC9.pending 4 (some (jC9, [])),
                    counter := updFn sC9.counter 4 (some 2),
                    nextId := 5 },
                 [Effect.send ⟨JobKind.lookUp, some ⟨6, none, none⟩, 1, 4⟩ 1,
                  Effect.send ⟨JobKind.lookUp, some ⟨7, none, none⟩, 1, 4⟩ 0],
                 none) :=
  c9_distribute_shape RC9 sC9 jC9 ⟨5, none, none⟩ rfl

/-! ### C10 -/

/-- C10: when the final `RESOLVE` of a pending entry arrives and the stored
parent position is primitive, the handler writes the parent's primitive
value and remoteness 0, for any collected child results whatsoever (they
are discarded; the child reduction runs only in the non-primitive branch). -/
theorem c10_resolve_primitive_parent (R : Rules Pos) (s : ProcState Pos)
    (job origJob : Job Pos) (gss : List (Option (GameState Pos)))
    (pgs : GameState Pos)
    (hc : s.counter job.jobId = some 1)
    (hp : s.pending job.jobId = some (origJob, gss))
    (hpg : origJob.gameState = some pgs)
    (hprim : R.isPrimitive pgs.pos = true) :
    stResolved (resolveHandler R s job) pgs.pos =
      some (some (R.primitiveValue pgs.pos)) ∧
    stRemote (resolveHandler R s job) pgs.pos = some (some 0) := by
  simp [resolveHandler, hc, hp, hpg, hprim, stResolved, stRemote, updFn]

/-- A rules provider where position 10 is primitive with value `TIE`. -/
def RC10 : Rules Nat :=
  { isPrimitive := fun p => decide (p = 10)
    primitiveValue := fun _ => Outcome.tie
    expand := fun _ => []
    hash := fun p => p }

/-- A pending entry (id 3) for primitive parent 10 that has already
collected a `(LOSS, 99)` child and waits on one more. -/
def sC10 : ProcState Nat :=
  { baseState with
      counter := fun k => if k = 3 then some 1 else none
      pending := fun k =>
        if k = 3 then
          some (⟨JobKind.distribute, some ⟨10, none, none⟩, 0, 0⟩,
                [some ⟨11, some Outcome.loss, some 99⟩])
        else none }

/-- The final `RESOLVE` for `sC10`: a `(LOSS, 98)` child. -/
def jC10 : Job Nat := ⟨JobKind.resolve, some ⟨12, some Outcome.loss, some 98⟩, 0, 3⟩

/-- Witness for C10: the collected `(LOSS, 99)` and `(LOSS, 98)` children
are ignored; position 10 is written as its primitive value `(TIE, 0)`. -/
theorem c10_resolve_primitive_parent_witness :
    stResolved (resolveHandler RC10 sC10 jC10) 10 = some (some Outcome.tie) ∧
    stRemote (resolveHandler RC10 sC10 jC10) 10 = some (some 0) :=
  c10_resolve_primitive_parent RC10 sC10 jC10
    ⟨JobKind.distribute, some ⟨10, none, none⟩, 0, 0⟩
    [some ⟨11, some Outcome.loss, some 99⟩]
    ⟨10, none, none⟩ rfl rfl rfl rfl

/-! ### C7: helper lemmas about dispatch -/

/-- `finished` always raises (see `finishedHandler`). -/
lemma finishedHandler_eq_error (s : ProcState Pos) :
    finishedHandler s = Except.error PyError.attributeError := rfl

/-- A successful `lookup` emits no effects and leaves the terminal flag
alone. -/
lemma lookup_ok_shape (R : Rules Pos) (s : ProcState Pos) (job : Job Pos)
    (s4 : ProcState Pos) (effs : List (Effect Pos)) (res : Option (Job Pos))
    (h : lookup R s job = Except.ok (s4, effs, res)) :
    effs = [] ∧ s4.finishedClass = s.finishedClass := by
  unfold lookup lookupExcept at h
  repeat' split at h
  all_goals first
    | exact Except.noConfusion h
    | (obtain ⟨h1, h2, h3⟩ := by simpa using h
       subst h1
       subst h2
       exact ⟨rfl, rfl⟩)

/-- A successful `resolve` emits no effects and leaves the terminal flag
alone. -/
lemma resolve_ok_shape (R : Rules Pos) (s : ProcState Pos) (job : Job Pos)
    (s4 : ProcState Pos) (effs : List (Effect Pos)) (res : Option (Job Pos))
    (h : resolveHandler R s job = Except.ok (s4, effs, res)) :
    effs = [] ∧ s4.finishedClass = s.finishedClass := by
  simp only [resolveHandler] at h
  repeat' split at h
  all_goals first
    | exact Except.noConfusion h
    | (obtain ⟨h1, h2, h3⟩ := by simpa using h
       subst h1
       subst h2
       exact ⟨rfl, rfl⟩)

/-- A successful `send_back` prints nothing and leaves the terminal flag
alone. -/
lemma sendBack_ok_shape (s : ProcState Pos) (job : Job Pos)
    (s4 : ProcState Pos) (effs : List (Effect Pos)) (res : Option (Job Pos))
    (h : sendBackHandler s job = Except.ok (s4, effs, res)) :
    countPrints effs = 0 ∧ s4.finishedClass = s.finishedClass := by
  unfold sendBackHandler at h
  obtain ⟨h1, h2, h3⟩ := by simpa using h
  subst h1
  subst h2
  exact ⟨rfl, rfl⟩

/-- A successful `distribute` prints nothing and leaves the terminal flag
alone. -/
lemma distribute_ok_shape (R : Rules Pos) (s : ProcState Pos) (job : Job Pos)
    (s4 : ProcState Pos) (effs : List (Effect Pos)) (res : Option (Job Pos))
    (h : distributeHandler R s job = Except.ok (s4, effs, res)) :
    countPrints effs = 0 ∧ s4.finishedClass = s.finishedClass := by
  unfold distributeHandler at h
  repeat' split at h
  all_goals first
    | exact Except.noConfusion h
    | (obtain ⟨h1, h2, h3⟩ := by simpa using h
       subst h1
       subst h2
       refine ⟨?_, rfl⟩
       simp [countPrints, List.countP_eq_zero, isPrintEffect])

/-- A successful dispatch of any job prints nothing and leaves the
terminal flag alone (only `run` itself prints). -/
lemma dispatch_ok_shape (R : Rules Pos) (s : ProcState Pos) (job : Job Pos)
    (incoming : List (Job Pos)) (s4 : ProcState Pos) (effs : List (Effect Pos))
    (res : Option (Job Pos)) (inc2 : List (Job Pos))
    (h : dispatch R s job incoming = Except.ok (s4, effs, res, inc2)) :
    countPrints effs = 0 ∧ s4.finishedClass = s.finishedClass := by
  unfold dispatch at h
  cases hjt : job.jobType <;> rw [hjt] at h
  case finished =>
    rw [finishedHandler_eq_error] at h
    simp [Except.map] at h
  case lookUp =>
    cases hl : lookup R s job with
    | error e => rw [hl] at h; simp [Except.map] at h
    | ok t =>
      obtain ⟨ta, tb, tc⟩ := t
      rw [hl] at h
      simp only [Except.map] at h
      obtain ⟨h1, h2, h3, h4⟩ := by simpa using h
      obtain ⟨he, hf⟩ := lookup_ok_shape R s job ta tb tc hl
      subst h1; subst h2
      simp [he, hf, countPrints]
  case resolve =>
    cases hl : resolveHandler R s job with
    | error e => rw [hl] at h; simp [Except.map] at h
    | ok t =>
      obtain ⟨ta, tb, tc⟩ := t
      rw [hl] at h
      simp only [Except.map] at h
      obtain ⟨h1, h2, h3, h4⟩ := by simpa using h
      obtain ⟨he, hf⟩ := resolve_ok_shape R s job ta tb tc hl
      subst h1; subst h2
      simp [he, hf, countPrints]
  case sendBack =>
    cases hl : sendBackHandler s job with
    | error e => rw [hl] at h; simp [Except.map] at h
    | ok t =>
      obtain ⟨ta, tb, tc⟩ := t
      rw [hl] at h
      simp only [Except.map] at h
      obtain ⟨h1, h2, h3, h4⟩ := by simpa using h
      obtain ⟨he, hf⟩ := sendBack_ok_shape s job ta tb tc hl
      subst h1; subst h2
      exact ⟨he, hf⟩
  case distribute =>
    cases hl : distributeHandler R s job with
    | error e => rw [hl] at h; simp [Except.map] at h
    | ok t =>
      obtain ⟨ta, tb, tc⟩ := t
      rw [hl] at h
      simp only [Except.map] at h
      obtain ⟨h1, h2, h3, h4⟩ := by simpa using h
      obtain ⟨he, hf⟩ := distribute_ok_shape R s job ta tb tc hl
      subst h1; subst h2
      exact ⟨he, hf⟩
  case checkForUpdates =>
    unfold checkForUpdatesHandler at h
    cases incoming with
    | nil =>
      obtain ⟨h1, h2, h3, h4⟩ := by simpa using h
      subst h1
      subst h2
      exact ⟨rfl, rfl⟩
    | cons m rest =>
      obtain ⟨h1, h2, h3, h4⟩ := by simpa using h
      subst h1
      subst h2
      exact ⟨rfl, rfl⟩

/-- `popJob` succeeds on a non-empty queue. -/
lemma popJob_ne_none (q : List (Job Pos)) (hq : q ≠ []) :
    popJob q ≠ none := by
  cases q with
  | nil => exact absurd rfl hq
  | cons j rest =>
    simp only [popJob]
    cases hpr : popJob rest with
    | none => simp
    | some kr =>
      obtain ⟨k, rest2⟩ := kr
      repeat' split
      all_goals simp

/-- The padded queue is never empty. -/
lemma padQueue_queue_ne_nil (s : ProcState Pos) : (padQueue s).queue ≠ [] := by
  unfold padQueue
  split
  · simp
  · simp_all [List.isEmpty_iff]

/-- Padding does not touch the terminal flag. -/
lemma padQueue_finishedClass (s : ProcState Pos) :
    (padQueue s).finishedClass = s.finishedClass := by
  unfold padQueue
  split <;> rfl

/-- C7 (amended): when the root rank observes the initial position in its
resolved table at the top of a loop iteration, the iteration prints exactly
one line `<OUTCOME> in <REMOTENESS> moves`, broadcasts the abort, and sets
the terminal flag so the loop exits at the next guard check — but it first
finishes the current iteration and dispatches one further job (a synthetic
`CHECK_FOR_UPDATES` when the queue is empty). -/
theorem c7_root_report_and_one_more_dispatch (R : Rules Pos)
    (s : ProcState Pos) (incoming : List (Job Pos)) (v : Outcome) (rr : Nat)
    (hrank : s.rank = s.root) (hres : s.resolved s.initialPos = some v)
    (hrem : s.remote s.initialPos = some rr) :
    (runIteration R s incoming).2 ≠ none ∧
    (∀ s5 effs inc2,
      (runIteration R s incoming).1 = Except.ok (s5, effs, inc2) →
      effs.take 2 =
        [Effect.printLine (toStr v ++ " in " ++ toString rr ++ " moves"),
         Effect.abortCall] ∧
      countPrints effs = 1 ∧
      s5.finishedClass = true) := by
  have hroot : rootCheck s =
      Except.ok ({ s with finishedClass := true },
        [Effect.printLine (toStr v ++ " in " ++ toString rr ++ " moves"),
         Effect.abortCall]) := by
    simp [rootCheck, hrank, hres, hrem]
  unfold runIteration
  rw [hroot]
  dsimp only
  cases hpop : popJob (padQueue { s with finishedClass := true }).queue with
  | none => exact absurd hpop (popJob_ne_none _ (padQueue_queue_ne_nil _))
  | some jr =>
    obtain ⟨job, rest⟩ := jr
    dsimp only
    cases hd : dispatch R
        (afterPop (padQueue { s with finishedClass := true }) rest)
        job incoming with
    | error e =>
      dsimp only
      refine ⟨by simp, ?_⟩
      intro s5 effs inc2 hok
      exact Except.noConfusion hok
    | ok quad =>
      obtain ⟨s4, effs2, result, inc2a⟩ := quad
      dsimp only
      obtain ⟨hcp, hfc⟩ := dispatch_ok_shape _ _ _ _ _ _ _ _ hd
      have hcp2 : effs2.countP isPrintEffect = 0 := hcp
      cases result with
      | some j =>
        refine ⟨by simp, ?_⟩
        intro s5 effs inc2 hok
        obtain ⟨h1, h2, h3⟩ := by simpa using hok
        subst h1
        subst h2
        refine ⟨rfl, ?_, ?_⟩
        · simp [countPrints, List.countP_cons, isPrintEffect, hcp2]
        · show s4.finishedClass = true
          rw [hfc]
          exact padQueue_finishedClass _
      | none =>
        refine ⟨by simp, ?_⟩
        intro s5 effs inc2 hok
        obtain ⟨h1, h2, h3⟩ := by simpa using hok
        subst h1
        subst h2
        refine ⟨rfl, ?_, ?_⟩
        · simp [countPrints, List.countP_cons, isPrintEffect, hcp2]
        · rw [hfc]
          exact padQueue_finishedClass _

/-- A root state whose initial position 0 is already resolved as
`(WIN, 0)`, with an empty queue. -/
def sC7 : ProcState Nat :=
  { baseState with
      resolved := fun p => if p = 0 then some Outcome.win else none
      remote := fun p => if p = 0 then some 0 else none }

/-- C7: the claim says that after printing the report and broadcasting the
abort the root exits the loop without dispatching any further job.  It
fails: in the very same iteration the loop body continues, pads the empty
queue, and dispatches one more job (the synthetic `CHECK_FOR_UPDATES`);
only the next guard check stops the loop. -/
theorem c7_dispatches_after_report :
    itDispatched (runIteration RfixA sC7 []) = some (cfuJob Nat) ∧
    itEffects (runIteration RfixA sC7 []) =
      some [Effect.printLine "WIN in 0 moves", Effect.abortCall] ∧
    itFinished (runIteration RfixA sC7 []) = some true := by
  decide

/-- A root state whose initial position 0 is resolved as `(LOSS, 3)`. -/
def sC7w : ProcState Nat :=
  { baseState with
      resolved := fun p => if p = 0 then some Outcome.loss else none
      remote := fun p => if p = 0 then some 3 else none }

/-- Witness for the amended C7: on a concrete root state the iteration
does dispatch a further job. -/
theorem c7_root_report_and_one_more_dispatch_witness :
    (runIteration RfixA sC7w []).2 ≠ none :=
  (c7_root_report_and_one_more_dispatch RfixA sC7w [] Outcome.loss 3
    rfl rfl rfl).1

end GamesmanMPI
